import Mathlib

/-!
Verification of get_gas_prices.py (base-network-gas-price-monitor).

The Python program is shallowly embedded: durations and gwei amounts are
modelled as rationals, Python exceptions as an inductive of the relevant
classes, the retry loop of fetch_gas_prices as a structurally recursive
function over the remaining attempt count, and the monitoring loop as a
fuel-indexed step function.  Randomness (the jitter draw of
random.uniform(0.8, 1.2)) is passed in explicitly as a stream of rational
draws, and the web3 adapter is passed in as a stream of per-attempt
outcomes.
-/

namespace GasPrices

/-- Log severities of the Python logging module, as used by the program. -/
inductive LogLevel where
  | debug
  | info
  | warning
  | error
  | critical
deriving DecidableEq, Repr

/-- Exception classes relevant to fetch_gas_prices.  The first four are the
transport classes named in the first except clause
(Timeout, TimeExhausted, ProviderConnectionError, RequestException);
otherError stands for any other subclass of Exception; keyboardInterrupt and
systemExit are BaseException subclasses that the second clause
(except Exception) does not catch. -/
inductive PyExn where
  | timeout
  | timeExhausted
  | providerConnectionError
  | requestException
  | otherError
  | keyboardInterrupt
  | systemExit
deriving DecidableEq, Repr

/-- Membership in the tuple of the first except clause of fetch_gas_prices. -/
def PyExn.isNetClass : PyExn → Bool
  | .timeout | .timeExhausted | .providerConnectionError | .requestException => true
  | _ => false

/-- Whether one of the two except clauses of fetch_gas_prices catches the
exception: except Exception catches every Exception subclass but no
BaseException-only class such as KeyboardInterrupt or SystemExit. -/
def PyExn.isCaught : PyExn → Bool
  | .keyboardInterrupt | .systemExit => false
  | _ => true

/-- Configuration snapshot, mirroring class Config of get_gas_prices.py.
Durations are rationals (the Python code mixes ints and floats). -/
structure Config where
  RETRY_LIMIT : ℕ
  RETRY_BASE_DELAY : ℚ
  MAX_RETRY_DELAY : ℚ
  MAX_TOTAL_BACKOFF : ℚ
  MONITOR_INTERVAL : ℕ
deriving DecidableEq, Repr

/-- The default values of class Config
(RETRY_LIMIT 5, RETRY_BASE_DELAY 1, MAX_RETRY_DELAY 30,
MAX_TOTAL_BACKOFF 120, MONITOR_INTERVAL 10). -/
def defaultConfig : Config :=
  { RETRY_LIMIT := 5
    RETRY_BASE_DELAY := 1
    MAX_RETRY_DELAY := 30
    MAX_TOTAL_BACKOFF := 120
    MONITOR_INTERVAL := 10 }

/-- delay = min(Config.RETRY_BASE_DELAY * (2 ** attempt), Config.MAX_RETRY_DELAY),
the first line of exponential_backoff. -/
def backoffDelay (cfg : Config) (attempt : ℕ) : ℚ :=
  min (cfg.RETRY_BASE_DELAY * 2 ^ attempt) cfg.MAX_RETRY_DELAY

/-- wait_time = min(delay * jitter, Config.MAX_TOTAL_BACKOFF - total_wait),
the clamped jittered delay of exponential_backoff; jitter is the draw of
random.uniform(0.8, 1.2), passed explicitly. -/
def backoffWaitTime (cfg : Config) (attempt : ℕ) (jitter total_wait : ℚ) : ℚ :=
  min (backoffDelay cfg attempt * jitter) (cfg.MAX_TOTAL_BACKOFF - total_wait)

/-- The time exponential_backoff actually sleeps: time.sleep(wait_time) runs
only under the guard wait_time > 0, so a non-positive wait_time sleeps
nothing. -/
def backoffSlept (cfg : Config) (attempt : ℕ) (jitter total_wait : ℚ) : ℚ :=
  max (backoffWaitTime cfg attempt jitter total_wait) 0

/-- The return value of exponential_backoff: total_wait + wait_time. -/
def exponential_backoff (cfg : Config) (attempt : ℕ) (jitter total_wait : ℚ) : ℚ :=
  total_wait + backoffWaitTime cfg attempt jitter total_wait

/-- Conversion of a wei amount to gwei, as Web3.from_wei(x, "gwei") followed
by float(): division by 10^9, modelled exactly on rationals. -/
def fromWei (wei : ℤ) : ℚ := (wei : ℚ) / 1000000000

/-- The result dict built by a successful attempt of fetch_gas_prices. -/
structure Sample where
  gas_price_gwei : ℚ
  base_fee_gwei : Option ℚ
  priority_fee_gwei : Option ℚ
  block_number : Option ℤ
deriving DecidableEq, Repr

/-- The success path of fetch_gas_prices:
base_fee_wei = block.get("baseFeePerGas", 0);
priority_fee_wei = gas_price_wei - base_fee_wei if base_fee_wei else None;
then each gwei field is converted only when its wei value is truthy
(a Python int is falsy exactly when it is zero, and None is falsy). -/
def mkSample (gas_price_wei : ℤ) (baseFeePerGas : Option ℤ) (number : Option ℤ) : Sample :=
  let base_fee_wei : ℤ := baseFeePerGas.getD 0
  let priority_fee_wei : Option ℤ :=
    if base_fee_wei ≠ 0 then some (gas_price_wei - base_fee_wei) else none
  { gas_price_gwei := fromWei gas_price_wei
    base_fee_gwei := if base_fee_wei ≠ 0 then some (fromWei base_fee_wei) else none
    priority_fee_gwei :=
      match priority_fee_wei with
      | some p => if p ≠ 0 then some (fromWei p) else none
      | none => none
    block_number := number }

/-- Outcome of one attempt of the try block of fetch_gas_prices: either the
queried fee data (gas price in wei, optional baseFeePerGas, optional block
number) or a raised exception. -/
inductive AttemptRes where
  | ok (gas_price_wei : ℤ) (baseFeePerGas : Option ℤ) (number : Option ℤ)
  | exn (e : PyExn)
deriving DecidableEq, Repr

/-- The attempt raised an exception that one of the two except clauses
catches. -/
def AttemptRes.isCaughtFailure : AttemptRes → Bool
  | .exn e => e.isCaught
  | .ok _ _ _ => false

/-- The attempt raised one of the transport-class exceptions of the first
except clause. -/
def AttemptRes.isNetFailure : AttemptRes → Bool
  | .exn e => e.isNetClass
  | .ok _ _ _ => false

/-- The attempt raised an exception that neither except clause catches
(a BaseException-only class). -/
def AttemptRes.isUncaught : AttemptRes → Bool
  | .exn e => !e.isCaught
  | .ok _ _ _ => false

deriving instance DecidableEq for Except

/-- Observable outcome of one call of fetch_gas_prices: the returned value
(ok (some s) for a sample dict, ok none for the Python None, error e for an
uncaught exception propagating to the caller), the number of attempts whose
try block ran, the number of positive backoff sleeps performed, the final
total_wait accumulator, and the argument of the terminal logger.error call
when it runs. -/
structure FetchOut where
  res : Except PyExn (Option Sample)
  attempts : ℕ
  sleeps : ℕ
  total_wait : ℚ
  errorLogged : Option ℕ
deriving DecidableEq, Repr

/-- The loop "for attempt in range(retries)" of fetch_gas_prices, recursing
on the number of remaining iterations; a is the current value of attempt,
tw the current total_wait, s the number of sleeps so far.  On a caught
failure the code always calls exponential_backoff, then breaks when
total_wait >= Config.MAX_TOTAL_BACKOFF; falling out of the loop (or
breaking) logs the error line with the retries argument and returns None. -/
def fetchLoop (cfg : Config) (beh : ℕ → AttemptRes) (jit : ℕ → ℚ) :
    ℕ → ℕ → ℚ → ℕ → FetchOut
  | a, 0, tw, s =>
      { res := Except.ok none, attempts := a, sleeps := s, total_wait := tw,
        errorLogged := some cfg.RETRY_LIMIT }
  | a, r + 1, tw, s =>
      match beh a with
      | .ok g bf bn =>
          { res := Except.ok (some (mkSample g bf bn)), attempts := a + 1,
            sleeps := s, total_wait := tw, errorLogged := none }
      | .exn e =>
          if e.isCaught then
            if cfg.MAX_TOTAL_BACKOFF ≤ exponential_backoff cfg a (jit a) tw then
              { res := Except.ok none, attempts := a + 1,
                sleeps := if 0 < backoffWaitTime cfg a (jit a) tw then s + 1 else s,
                total_wait := exponential_backoff cfg a (jit a) tw,
                errorLogged := some cfg.RETRY_LIMIT }
            else
              fetchLoop cfg beh jit (a + 1) r
                (exponential_backoff cfg a (jit a) tw)
                (if 0 < backoffWaitTime cfg a (jit a) tw then s + 1 else s)
          else
            { res := Except.error e, attempts := a + 1, sleeps := s,
              total_wait := tw, errorLogged := none }

/-- fetch_gas_prices(web3) with the default retries = Config.RETRY_LIMIT:
total_wait starts at 0.0 and attempt at 0. -/
def fetch_gas_prices (cfg : Config) (beh : ℕ → AttemptRes) (jit : ℕ → ℚ) : FetchOut :=
  fetchLoop cfg beh jit 0 cfg.RETRY_LIMIT 0 0

/-- The call of fetch_gas_prices returned normally (no exception propagated
to the caller). -/
def fetchReturned (o : FetchOut) : Bool :=
  match o.res with
  | Except.ok _ => true
  | Except.error _ => false

/-- Environment of one monitoring cycle: what get_web3 would do this cycle
(whether the URL check passes, whether w3.is_connected() holds, the id of
the connection object it would return) and the adapter behaviour plus
jitter draws a fetch in this cycle would see. -/
structure CycleEnv where
  urlConfigured : Bool
  canConnect : Bool
  connId : ℕ
  beh : ℕ → AttemptRes
  jit : ℕ → ℚ

/-- get_web3(url): logs a warning when the URL is not configured properly,
then either returns the connection (after a debug line) or raises
ConnectionError when w3.is_connected() is false.  The pair carries the
levels of the log records it emits. -/
def get_web3 (env : CycleEnv) : Except Unit ℕ × List LogLevel :=
  let warnLogs := if env.urlConfigured then [] else [LogLevel.warning]
  if env.canConnect then (Except.ok env.connId, warnLogs ++ [LogLevel.debug])
  else (Except.error (), warnLogs)

/-- Observable outcome of one iteration of the while loop of
monitor_gas_prices: the web3 variable at the end of the iteration, whether
get_web3 was called, the levels of the log records emitted by get_web3 and
by the loop body itself (not by fetch_gas_prices, whose records live in
FetchOut), and the value fetch_gas_prices returned when it was called. -/
structure CycleOut where
  conn : Option ℕ
  calledConnect : Bool
  levels : List LogLevel
  fetched : Option (Option Sample)
deriving DecidableEq, Repr

/-- One iteration of the while loop of monitor_gas_prices, up to the
interval sleep.  When web3 is None the body calls get_web3; a raised
ConnectionError is an Exception, so the except clause catches it, calls
logger.exception (an error-level record) and sets web3 = None.  When a
connection exists the body goes straight to fetch_gas_prices; a None
result only logs a warning, while an exception fetch_gas_prices does not
catch (a BaseException-only class) also escapes the except Exception
clause of the loop body and propagates. -/
def monitorCycle (cfg : Config) (conn : Option ℕ) (env : CycleEnv) :
    Except PyExn CycleOut :=
  match conn with
  | none =>
      match get_web3 env with
      | (Except.error _, lv) =>
          Except.ok { conn := none, calledConnect := true,
                      levels := lv ++ [LogLevel.error], fetched := none }
      | (Except.ok w, lv) =>
          match (fetch_gas_prices cfg env.beh env.jit).res with
          | Except.error e => Except.error e
          | Except.ok r =>
              Except.ok { conn := some w, calledConnect := true,
                          levels := lv ++ [LogLevel.info] ++
                            (if r = none then [LogLevel.warning] else []),
                          fetched := some r }
  | some w =>
      match (fetch_gas_prices cfg env.beh env.jit).res with
      | Except.error e => Except.error e
      | Except.ok r =>
          Except.ok { conn := some w, calledConnect := false,
                      levels := if r = none then [LogLevel.warning] else [],
                      fetched := some r }

/-- Observable outcome of a run of the monitoring loop: the final web3
variable, the number of iterations begun (the index of the next cycle),
how many times the final stopped line was logged, whether the loop exited
through its condition, and the per-cycle outcomes. -/
structure RunOut where
  conn : Option ℕ
  cycles : ℕ
  stoppedLogs : ℕ
  exited : Bool
  trace : List CycleOut
deriving DecidableEq, Repr

/-- The while loop of monitor_gas_prices, bounded by fuel iterations: at
the top of each iteration the killer.kill_now flag is read (kill i is its
value when cycle i would start); if set, the loop exits and the single
final stopped log line runs.  Running out of fuel reports a still-running
loop (exited = false, no stopped line). -/
def monitorRun (cfg : Config) (envs : ℕ → CycleEnv) (kill : ℕ → Bool) :
    ℕ → ℕ → Option ℕ → List CycleOut → Except PyExn RunOut
  | 0, i, conn, acc =>
      Except.ok { conn := conn, cycles := i, stoppedLogs := 0, exited := false,
                  trace := acc.reverse }
  | fuel + 1, i, conn, acc =>
      if kill i then
        Except.ok { conn := conn, cycles := i, stoppedLogs := 1, exited := true,
                    trace := acc.reverse }
      else
        match monitorCycle cfg conn (envs i) with
        | Except.error e => Except.error e
        | Except.ok out => monitorRun cfg envs kill fuel (i + 1) out.conn (out :: acc)

/-- The interval sleep of monitor_gas_prices,
"for each of interval seconds: if killer.kill_now: break; time.sleep(1)":
number of whole seconds slept, where kill t is the flag value when second
t is about to be slept. -/
def sleepLoopGo (kill : ℕ → Bool) : ℕ → ℕ → ℕ
  | 0, _ => 0
  | n + 1, t => if kill t then 0 else 1 + sleepLoopGo kill n (t + 1)

/-- Seconds slept by one interval sleep of monitor_gas_prices. -/
def sleepLoop (interval : ℕ) (kill : ℕ → Bool) : ℕ := sleepLoopGo kill interval 0

/-- GracefulKiller._handler: logs which signal was received and sets
kill_now = True, whatever its previous value. -/
def killerHandle (_kill_now : Bool) : Bool × List LogLevel := (true, [LogLevel.info])

/-- The kill_now flag after n deliveries of a termination signal, starting
from flag value k. -/
def killerAfter (k : Bool) : ℕ → Bool
  | 0 => k
  | n + 1 => (killerHandle (killerAfter k n)).1

/-- Adapter that raises a transport-class error on every attempt. -/
def behTimeout : ℕ → AttemptRes := fun _ => AttemptRes.exn PyExn.timeout

/-- Adapter that raises KeyboardInterrupt (a BaseException) on every
attempt. -/
def behKI : ℕ → AttemptRes := fun _ => AttemptRes.exn PyExn.keyboardInterrupt

/-- Jitter stream that always draws 1. -/
def jitOne : ℕ → ℚ := fun _ => 1

/-- Cycle environment whose connection handshake fails. -/
def envConnFail : CycleEnv :=
  { urlConfigured := true, canConnect := false, connId := 0,
    beh := behTimeout, jit := jitOne }

/-- Cycle environment with a working endpoint whose every fetch attempt
fails with a transport-class error. -/
def envNetFail : CycleEnv :=
  { urlConfigured := true, canConnect := true, connId := 3,
    beh := behTimeout, jit := jitOne }

/-- Helper: an always-failing behaviour (all failures caught) drives
fetchLoop to the None outcome with the terminal error log, within the
remaining attempt budget, and any early stop is due to the backoff budget. -/
theorem fetchLoop_allFail (cfg : Config) (beh : ℕ → AttemptRes) (jit : ℕ → ℚ)
    (hf : ∀ n, (beh n).isCaughtFailure = true) :
    ∀ r a tw s,
      (fetchLoop cfg beh jit a r tw s).res = Except.ok none ∧
      (fetchLoop cfg beh jit a r tw s).errorLogged = some cfg.RETRY_LIMIT ∧
      (fetchLoop cfg beh jit a r tw s).attempts ≤ a + r ∧
      ((fetchLoop cfg beh jit a r tw s).attempts = a + r ∨
        cfg.MAX_TOTAL_BACKOFF ≤ (fetchLoop cfg beh jit a r tw s).total_wait) := by
  intro r
  induction r with
  | zero =>
      intro a tw s
      simp [fetchLoop]
  | succ r ih =>
      intro a tw s
      have hfa := hf a
      cases hba : beh a with
      | ok g bf bn =>
          rw [hba] at hfa
          simp [AttemptRes.isCaughtFailure] at hfa
      | exn e =>
          rw [hba] at hfa
          simp only [AttemptRes.isCaughtFailure] at hfa
          simp only [fetchLoop, hba, hfa, if_true]
          by_cases hbk : cfg.MAX_TOTAL_BACKOFF ≤ exponential_backoff cfg a (jit a) tw
          · rw [if_pos hbk]
            exact ⟨rfl, rfl, by show a + 1 ≤ a + (r + 1); omega, Or.inr hbk⟩
          · rw [if_neg hbk]
            obtain ⟨h1, h2, h4, h5⟩ := ih (a + 1) (exponential_backoff cfg a (jit a) tw)
              (if 0 < backoffWaitTime cfg a (jit a) tw then s + 1 else s)
            refine ⟨h1, h2, by omega, ?_⟩
            rcases h5 with h5 | h5
            · exact Or.inl (by omega)
            · exact Or.inr h5

/-- Helper: when no attempt raises a BaseException-only class, fetchLoop
always returns (no exception propagates). -/
theorem fetchLoop_returns (cfg : Config) (beh : ℕ → AttemptRes) (jit : ℕ → ℚ)
    (hf : ∀ n, (beh n).isUncaught = false) :
    ∀ r a tw s, fetchReturned (fetchLoop cfg beh jit a r tw s) = true := by
  intro r
  induction r with
  | zero =>
      intro a tw s
      simp [fetchLoop, fetchReturned]
  | succ r ih =>
      intro a tw s
      have hfa := hf a
      cases hba : beh a with
      | ok g bf bn => simp [fetchLoop, hba, fetchReturned]
      | exn e =>
          rw [hba] at hfa
          have hca : e.isCaught = true := by
            simpa [AttemptRes.isUncaught] using hfa
          simp only [fetchLoop, hba, hca, if_true]
          by_cases hbk : cfg.MAX_TOTAL_BACKOFF ≤ exponential_backoff cfg a (jit a) tw
          · rw [if_pos hbk]
            simp [fetchReturned]
          · rw [if_neg hbk]
            exact ih (a + 1) (exponential_backoff cfg a (jit a) tw)
              (if 0 < backoffWaitTime cfg a (jit a) tw then s + 1 else s)

/-- Helper: a transport-class failure is caught. -/
theorem isNetFailure_isCaught (x : AttemptRes) (h : x.isNetFailure = true) :
    x.isCaughtFailure = true := by
  cases x with
  | ok g bf bn => simp [AttemptRes.isNetFailure] at h
  | exn e =>
      simp only [AttemptRes.isNetFailure] at h
      cases e <;> simp_all [PyExn.isNetClass, AttemptRes.isCaughtFailure, PyExn.isCaught]

/-- C5: for every attempt count and totalWaitSoFar, the jittered wait_time
of exponential_backoff is clamped so totalWaitSoFar plus wait_time never
exceeds MAX_TOTAL_BACKOFF, and once totalWaitSoFar has reached
MAX_TOTAL_BACKOFF the time slept is zero. -/
theorem c5_backoff_clamped (cfg : Config) (a : ℕ) (j tw : ℚ) :
    tw + backoffWaitTime cfg a j tw ≤ cfg.MAX_TOTAL_BACKOFF ∧
    (cfg.MAX_TOTAL_BACKOFF ≤ tw → backoffSlept cfg a j tw = 0) := by
  constructor
  · have h := min_le_right (backoffDelay cfg a * j) (cfg.MAX_TOTAL_BACKOFF - tw)
    unfold backoffWaitTime
    linarith
  · intro h
    have h2 := min_le_right (backoffDelay cfg a * j) (cfg.MAX_TOTAL_BACKOFF - tw)
    unfold backoffSlept
    apply max_eq_right
    unfold backoffWaitTime
    linarith

/-- Witness for C5 at attempt 0, jitter 1, totalWaitSoFar 130 over the
default configuration. -/
theorem c5_witness :
    defaultConfig.MAX_TOTAL_BACKOFF ≤ (130 : ℚ) ∧ backoffSlept defaultConfig 0 1 130 = 0 :=
  ⟨by norm_num [defaultConfig],
    (c5_backoff_clamped defaultConfig 0 1 130).2 (by norm_num [defaultConfig])⟩

/-- C6: for a fixed jitter draw in the range of random.uniform(0.8, 1.2)
the slept delay is monotonically non-decreasing in the attempt count; below
the MAX_RETRY_DELAY cap it is non-decreasing even across distinct jitter
draws; and for every attempt and every jitter draw in range the delay is at
most MAX_RETRY_DELAY * 1.2. -/
theorem c6_backoff_monotone_bounded (cfg : Config) (tw j j1 j2 : ℚ) (a a1 a2 : ℕ)
    (hb : 0 ≤ cfg.RETRY_BASE_DELAY) (hM : 0 ≤ cfg.MAX_RETRY_DELAY)
    (hj0 : 4 / 5 ≤ j) (hj1 : j ≤ 6 / 5)
    (hja : 4 / 5 ≤ j1) (hjb : j1 ≤ 6 / 5) (hjc : 4 / 5 ≤ j2) (hjd : j2 ≤ 6 / 5) :
    (a1 ≤ a2 → backoffSlept cfg a1 j tw ≤ backoffSlept cfg a2 j tw) ∧
    (a1 < a2 → cfg.RETRY_BASE_DELAY * 2 ^ a2 ≤ cfg.MAX_RETRY_DELAY →
      backoffDelay cfg a1 * j1 ≤ backoffDelay cfg a2 * j2) ∧
    backoffSlept cfg a j tw ≤ cfg.MAX_RETRY_DELAY * (6 / 5) := by
  have hj' : (0 : ℚ) ≤ j := by linarith
  refine ⟨?_, ?_, ?_⟩
  · intro hle
    have hpow : (2 : ℚ) ^ a1 ≤ 2 ^ a2 := pow_le_pow_right₀ (by norm_num) hle
    have hd : backoffDelay cfg a1 ≤ backoffDelay cfg a2 := by
      unfold backoffDelay
      exact min_le_min (by nlinarith) le_rfl
    have hw : backoffWaitTime cfg a1 j tw ≤ backoffWaitTime cfg a2 j tw := by
      unfold backoffWaitTime
      exact min_le_min (mul_le_mul_of_nonneg_right hd hj') le_rfl
    unfold backoffSlept
    exact max_le_max hw le_rfl
  · intro hlt hcap
    have hx : (0 : ℚ) ≤ cfg.RETRY_BASE_DELAY * 2 ^ a1 := by positivity
    have hpow2 : (2 : ℚ) ^ (a1 + 1) ≤ 2 ^ a2 := pow_le_pow_right₀ (by norm_num) (by omega)
    have h2 : 2 * (2 : ℚ) ^ a1 ≤ 2 ^ a2 := by
      have hs := pow_succ (2 : ℚ) a1
      linarith
    have key : cfg.RETRY_BASE_DELAY * (2 * 2 ^ a1) ≤ cfg.RETRY_BASE_DELAY * 2 ^ a2 :=
      mul_le_mul_of_nonneg_left h2 hb
    have hba1 : cfg.RETRY_BASE_DELAY * 2 ^ a1 ≤ cfg.MAX_RETRY_DELAY := by nlinarith
    have e1 : backoffDelay cfg a1 = cfg.RETRY_BASE_DELAY * 2 ^ a1 := min_eq_left hba1
    have e2 : backoffDelay cfg a2 = cfg.RETRY_BASE_DELAY * 2 ^ a2 := min_eq_left hcap
    rw [e1, e2]
    have hY : (0 : ℚ) ≤ cfg.RETRY_BASE_DELAY * 2 ^ a2 := by positivity
    have h6 : cfg.RETRY_BASE_DELAY * 2 ^ a1 * j1 ≤ cfg.RETRY_BASE_DELAY * 2 ^ a1 * (6 / 5) :=
      mul_le_mul_of_nonneg_left hjb hx
    have h7 : cfg.RETRY_BASE_DELAY * 2 ^ a2 * (4 / 5) ≤ cfg.RETRY_BASE_DELAY * 2 ^ a2 * j2 :=
      mul_le_mul_of_nonneg_left hjc hY
    nlinarith
  · have hd0 : 0 ≤ backoffDelay cfg a := le_min (by positivity) hM
    have hdM : backoffDelay cfg a ≤ cfg.MAX_RETRY_DELAY := min_le_right _ _
    have hdj : backoffDelay cfg a * j ≤ cfg.MAX_RETRY_DELAY * (6 / 5) :=
      mul_le_mul hdM hj1 hj' hM
    unfold backoffSlept backoffWaitTime
    apply max_le
    · exact le_trans (min_le_left _ _) hdj
    · exact mul_nonneg hM (by norm_num)

/-- Witness for C6 over the default configuration: monotonicity from
attempt 0 to attempt 2, the cross-draw comparison below the cap, and the
bound at attempt 1 (all at jitter 1, totalWaitSoFar 0). -/
theorem c6_witness :
    backoffSlept defaultConfig 0 1 0 ≤ backoffSlept defaultConfig 2 1 0 ∧
    backoffDelay defaultConfig 0 * 1 ≤ backoffDelay defaultConfig 2 * 1 ∧
    backoffSlept defaultConfig 1 1 0 ≤ defaultConfig.MAX_RETRY_DELAY * (6 / 5) :=
  ⟨(c6_backoff_monotone_bounded defaultConfig 0 1 1 1 1 0 2 (by norm_num [defaultConfig])
      (by norm_num [defaultConfig]) (by norm_num) (by norm_num) (by norm_num) (by norm_num)
      (by norm_num) (by norm_num)).1 (by norm_num),
   (c6_backoff_monotone_bounded defaultConfig 0 1 1 1 1 0 2 (by norm_num [defaultConfig])
      (by norm_num [defaultConfig]) (by norm_num) (by norm_num) (by norm_num) (by norm_num)
      (by norm_num) (by norm_num)).2.1 (by norm_num) (by norm_num [defaultConfig]),
   (c6_backoff_monotone_bounded defaultConfig 0 1 1 1 1 0 2 (by norm_num [defaultConfig])
      (by norm_num [defaultConfig]) (by norm_num) (by norm_num) (by norm_num) (by norm_num)
      (by norm_num) (by norm_num)).2.2⟩

/-- C3: for every adapter that fails on every attempt with a caught
exception, fetch_gas_prices returns None, logs the terminal error line with
the retry limit, makes at most RETRY_LIMIT attempts, and stops short of
RETRY_LIMIT attempts only when the accumulated backoff has reached
MAX_TOTAL_BACKOFF. -/
theorem c3_always_fail (cfg : Config) (beh : ℕ → AttemptRes) (jit : ℕ → ℚ)
    (hf : ∀ n, (beh n).isCaughtFailure = true) :
    (fetch_gas_prices cfg beh jit).res = Except.ok none ∧
    (fetch_gas_prices cfg beh jit).errorLogged = some cfg.RETRY_LIMIT ∧
    (fetch_gas_prices cfg beh jit).attempts ≤ cfg.RETRY_LIMIT ∧
    ((fetch_gas_prices cfg beh jit).attempts = cfg.RETRY_LIMIT ∨
      cfg.MAX_TOTAL_BACKOFF ≤ (fetch_gas_prices cfg beh jit).total_wait) := by
  have h := fetchLoop_allFail cfg beh jit hf cfg.RETRY_LIMIT 0 0 0
  simpa [fetch_gas_prices] using h

/-- Witness for C3: the always-timeout adapter over the default
configuration. -/
theorem c3_witness :
    (fetch_gas_prices defaultConfig behTimeout jitOne).res = Except.ok none ∧
    (fetch_gas_prices defaultConfig behTimeout jitOne).errorLogged =
      some defaultConfig.RETRY_LIMIT ∧
    (fetch_gas_prices defaultConfig behTimeout jitOne).attempts ≤ defaultConfig.RETRY_LIMIT ∧
    ((fetch_gas_prices defaultConfig behTimeout jitOne).attempts = defaultConfig.RETRY_LIMIT ∨
      defaultConfig.MAX_TOTAL_BACKOFF ≤
        (fetch_gas_prices defaultConfig behTimeout jitOne).total_wait) :=
  c3_always_fail defaultConfig behTimeout jitOne (fun _ => rfl)

/-- C9 counterexample: an adapter raising KeyboardInterrupt (a
BaseException) on the first attempt escapes both except clauses, so
fetch_gas_prices propagates it instead of returning a dict or None. -/
theorem c9_counterexample :
    (fetch_gas_prices defaultConfig behKI jitOne).res =
      Except.error PyExn.keyboardInterrupt ∧
    fetchReturned (fetch_gas_prices defaultConfig behKI jitOne) = false := by
  norm_num [fetch_gas_prices, fetchLoop, behKI, fetchReturned, PyExn.isCaught, defaultConfig]

/-- C9 amended: fetch_gas_prices propagates no exception provided no
attempt raises a BaseException-only class (KeyboardInterrupt, SystemExit);
every Exception subclass is caught by one of the two except clauses and
the call returns a sample dict or None. -/
theorem c9_amended (cfg : Config) (beh : ℕ → AttemptRes) (jit : ℕ → ℚ)
    (hf : ∀ n, (beh n).isUncaught = false) :
    fetchReturned (fetch_gas_prices cfg beh jit) = true :=
  fetchLoop_returns cfg beh jit hf cfg.RETRY_LIMIT 0 0 0

/-- Witness for the amended C9: the always-timeout adapter. -/
theorem c9_witness : fetchReturned (fetch_gas_prices defaultConfig behTimeout jitOne) = true :=
  c9_amended defaultConfig behTimeout jitOne (fun _ => rfl)

/-- C2 counterexample: with the base fee present, non-zero and equal to the
gas price (both 50 gwei), the code reports the priority fee as absent,
while the claim requires it to equal gasPrice - baseFee = 0. -/
theorem c2_counterexample :
    (mkSample (50 * 10 ^ 9) (some (50 * 10 ^ 9)) none).priority_fee_gwei = none ∧
    (none : Option ℚ) ≠ some 0 := by
  refine ⟨by decide, by simp⟩

/-- C2 amended: the priority fee equals gasPrice - baseFee exactly when the
base fee is present, non-zero, and the difference itself is non-zero; it is
absent when the base fee is absent, zero, or equal to the gas price.  In
particular gasPrice 50 gwei with baseFee 30 gwei yields priorityFee
20 gwei. -/
theorem c2_amended (g b : ℤ) (n : Option ℤ) :
    ((mkSample g (some b) n).priority_fee_gwei =
      if b ≠ 0 ∧ g - b ≠ 0 then some (fromWei g - fromWei b) else none) ∧
    (mkSample g none n).priority_fee_gwei = none ∧
    (mkSample (50 * 10 ^ 9) (some (30 * 10 ^ 9)) none).priority_fee_gwei = some 20 := by
  refine ⟨?_, by simp [mkSample], by norm_num [mkSample, fromWei]⟩
  by_cases hb : b = 0
  · subst hb
    simp [mkSample]
  · by_cases hgb : g - b = 0
    · simp [mkSample, hb, hgb]
    · have hsplit : fromWei (g - b) = fromWei g - fromWei b := by
        unfold fromWei
        push_cast
        ring
      simp [mkSample, hb, hgb, hsplit]

/-- C10: a computed priority fee of zero wei (base fee present, non-zero,
equal to the gas price) is falsy in Python, so the reported
priority_fee_gwei is None, never 0.0. -/
theorem c10_zero_priority_absent (g b : ℤ) (n : Option ℤ) (hb : b ≠ 0) (he : g = b) :
    (mkSample g (some b) n).priority_fee_gwei = none := by
  subst he
  simp [mkSample, hb]

/-- Witness for C10 at 30 gwei. -/
theorem c10_witness :
    (mkSample (30 * 10 ^ 9) (some (30 * 10 ^ 9)) (some 1)).priority_fee_gwei = none :=
  c10_zero_priority_absent _ _ _ (by norm_num) rfl

/-- Helper: over the default configuration with jitters in the range of
random.uniform(0.8, 1.2), an adapter whose attempts before k fail with a
caught exception and whose attempt k succeeds drives fetchLoop from any
consistent intermediate state (the accumulated backoff of the first a
attempts is at most (2 ^ a - 1) * 1.2) to the success of attempt k, with one
positive sleep per failed attempt and no early budget stop. -/
theorem fetchLoop_failThenSucc (beh : ℕ → AttemptRes) (jit : ℕ → ℚ)
    (g : ℤ) (bf : Option ℤ) (bn : Option ℤ) (k : ℕ) (hk : k < 5)
    (hfail : ∀ n, n < k → (beh n).isCaughtFailure = true)
    (hsucc : beh k = AttemptRes.ok g bf bn)
    (hjlo : ∀ n, 4 / 5 ≤ jit n) (hjhi : ∀ n, jit n ≤ 6 / 5) :
    ∀ d a tw s, a + d = k → 0 ≤ tw → tw ≤ ((2 : ℚ) ^ a - 1) * (6 / 5) →
      (fetchLoop defaultConfig beh jit a (5 - a) tw s).res =
        Except.ok (some (mkSample g bf bn)) ∧
      (fetchLoop defaultConfig beh jit a (5 - a) tw s).attempts = k + 1 ∧
      (fetchLoop defaultConfig beh jit a (5 - a) tw s).sleeps = s + d := by
  intro d
  induction d with
  | zero =>
      intro a tw s hak htw0 htwb
      have ha : a = k := by omega
      subst ha
      obtain ⟨m, hm⟩ : ∃ m, 5 - a = m + 1 := ⟨4 - a, by omega⟩
      rw [hm]
      simp [fetchLoop, hsucc]
  | succ d ih =>
      intro a tw s hak htw0 htwb
      have halt : a < k := by omega
      have ha3 : a ≤ 3 := by omega
      have hfa := hfail a halt
      cases hba : beh a with
      | ok g2 bf2 bn2 =>
          rw [hba] at hfa
          simp [AttemptRes.isCaughtFailure] at hfa
      | exn e =>
          rw [hba] at hfa
          simp only [AttemptRes.isCaughtFailure] at hfa
          obtain ⟨m, hm⟩ : ∃ m, 5 - a = m + 1 := ⟨4 - a, by omega⟩
          rw [hm]
          simp only [fetchLoop, hba, hfa, if_true]
          have hpow : (2 : ℚ) ^ a ≤ 8 := by
            calc (2 : ℚ) ^ a ≤ 2 ^ 3 := pow_le_pow_right₀ (by norm_num) ha3
            _ = 8 := by norm_num
          have hpow0 : (0 : ℚ) < 2 ^ a := by positivity
          have hjl := hjlo a
          have hjh := hjhi a
          have htw8 : tw ≤ 42 / 5 := by nlinarith
          have hprod : 2 ^ a * jit a ≤ 8 * (6 / 5 : ℚ) :=
            mul_le_mul hpow hjh (le_trans (by norm_num) hjl) (by norm_num)
          have hdelay : backoffDelay defaultConfig a = 2 ^ a := by
            show min ((1 : ℚ) * 2 ^ a) 30 = 2 ^ a
            rw [one_mul]
            exact min_eq_left (by linarith)
          have hwt : backoffWaitTime defaultConfig a (jit a) tw = 2 ^ a * jit a := by
            show min (backoffDelay defaultConfig a * jit a) ((120 : ℚ) - tw) = 2 ^ a * jit a
            rw [hdelay]
            exact min_eq_left (by linarith)
          have hwpos : 0 < backoffWaitTime defaultConfig a (jit a) tw := by
            rw [hwt]
            exact mul_pos hpow0 (lt_of_lt_of_le (by norm_num) hjl)
          have hexp : exponential_backoff defaultConfig a (jit a) tw =
              tw + 2 ^ a * jit a := by
            unfold exponential_backoff
            rw [hwt]
          have hnobreak : ¬ (defaultConfig.MAX_TOTAL_BACKOFF ≤
              exponential_backoff defaultConfig a (jit a) tw) := by
            rw [hexp]
            show ¬ ((120 : ℚ) ≤ tw + 2 ^ a * jit a)
            push_neg
            linarith
          rw [if_neg hnobreak, if_pos hwpos, hexp]
          have hm2 : m = 5 - (a + 1) := by omega
          rw [hm2]
          have hps : (2 : ℚ) ^ (a + 1) = 2 ^ a * 2 := pow_succ 2 a
          have hstep : 2 ^ a * jit a ≤ 2 ^ a * (6 / 5) :=
            mul_le_mul_of_nonneg_left hjh (le_of_lt hpow0)
          obtain ⟨ihr, iha, ihs⟩ := ih (a + 1) (tw + 2 ^ a * jit a) (s + 1)
            (by omega) (by nlinarith) (by rw [hps]; linarith)
          exact ⟨ihr, iha, by omega⟩

/-- C4: over the default configuration, for every adapter that fails with a
caught exception on attempts before k and succeeds at attempt k with
k < RETRY_LIMIT, and every jitter draws in the range of
random.uniform(0.8, 1.2), fetch_gas_prices returns the first successful
sample immediately (attempt k + 1 is the last) after exactly k backoff
sleeps. -/
theorem c4_fail_then_succeed (k : ℕ) (beh : ℕ → AttemptRes) (jit : ℕ → ℚ)
    (g : ℤ) (bf : Option ℤ) (bn : Option ℤ) (hk : k < defaultConfig.RETRY_LIMIT)
    (hfail : ∀ n, n < k → (beh n).isCaughtFailure = true)
    (hsucc : beh k = AttemptRes.ok g bf bn)
    (hjlo : ∀ n, 4 / 5 ≤ jit n) (hjhi : ∀ n, jit n ≤ 6 / 5) :
    (fetch_gas_prices defaultConfig beh jit).res = Except.ok (some (mkSample g bf bn)) ∧
    (fetch_gas_prices defaultConfig beh jit).attempts = k + 1 ∧
    (fetch_gas_prices defaultConfig beh jit).sleeps = k := by
  have hk5 : k < 5 := hk
  have h := fetchLoop_failThenSucc beh jit g bf bn k hk5 hfail hsucc hjlo hjhi k 0 0 0
    (by omega) le_rfl (by norm_num)
  simpa [fetch_gas_prices, defaultConfig] using h

/-- Adapter that fails with a transport error on attempt 0 and succeeds on
every later attempt with gasPrice 50 gwei, baseFee 30 gwei, block 123. -/
def behOneFail : ℕ → AttemptRes := fun n =>
  if n = 0 then AttemptRes.exn PyExn.timeout
  else AttemptRes.ok (50 * 10 ^ 9) (some (30 * 10 ^ 9)) (some 123)

/-- Witness for C4 at k = 1 with jitter 1. -/
theorem c4_witness :
    (fetch_gas_prices defaultConfig behOneFail jitOne).res =
      Except.ok (some (mkSample (50 * 10 ^ 9) (some (30 * 10 ^ 9)) (some 123))) ∧
    (fetch_gas_prices defaultConfig behOneFail jitOne).attempts = 1 + 1 ∧
    (fetch_gas_prices defaultConfig behOneFail jitOne).sleeps = 1 :=
  c4_fail_then_succeed 1 behOneFail jitOne _ _ _ (by norm_num [defaultConfig])
    (fun n hn => by
      have hn0 : n = 0 := by omega
      subst hn0
      rfl)
    rfl (fun _ => by norm_num [jitOne]) (fun _ => by norm_num [jitOne])

/-- Helper: one cycle with no live connection and a failing handshake: the
ConnectionError raised by get_web3 is caught by the loop body, which logs
it at error level (logger.exception) and leaves web3 = None. -/
theorem monitorCycle_connFail (cfg : Config) (env : CycleEnv)
    (h : env.canConnect = false) :
    monitorCycle cfg none env =
      Except.ok { conn := none, calledConnect := true,
                  levels := (if env.urlConfigured then [] else [LogLevel.warning]) ++
                    [LogLevel.error],
                  fetched := none } := by
  simp [monitorCycle, get_web3, h]

/-- Helper: with the stop flag never set and every handshake failing, the
monitoring loop never crashes and never exits: after any number of fuel
cycles it is still running with web3 = None and no stopped line. -/
theorem monitorRun_connFail (cfg : Config) (envs : ℕ → CycleEnv)
    (hc : ∀ n, (envs n).canConnect = false) :
    ∀ fuel i acc, ∃ tr, monitorRun cfg envs (fun _ => false) fuel i none acc =
      Except.ok { conn := none, cycles := i + fuel, stoppedLogs := 0, exited := false,
                  trace := tr } := by
  intro fuel
  induction fuel with
  | zero =>
      intro i acc
      exact ⟨acc.reverse, by simp [monitorRun]⟩
  | succ fuel ih =>
      intro i acc
      have hcy := monitorCycle_connFail cfg (envs i) (hc i)
      obtain ⟨tr, htr⟩ := ih (i + 1)
        ({ conn := none, calledConnect := true,
           levels := (if (envs i).urlConfigured then [] else [LogLevel.warning]) ++
             [LogLevel.error],
           fetched := none } :: acc)
      refine ⟨tr, ?_⟩
      simp only [monitorRun, hcy, if_false, Bool.false_eq_true]
      have harith : i + 1 + fuel = i + (fuel + 1) := by omega
      rw [← harith]
      exact htr

/-- C1 counterexample: a cycle starting with a live connection (id 7)
whose every fetch attempt fails with a transport error ends with the same
connection still present (web3 is not set to None), contradicting the
claimed invalidation. -/
theorem c1_counterexample :
    (monitorCycle defaultConfig (some 7) envNetFail).map CycleOut.conn =
      Except.ok (some 7) ∧
    some 7 ≠ (none : Option ℕ) := by
  constructor
  · norm_num [monitorCycle, envNetFail, fetch_gas_prices, fetchLoop, exponential_backoff,
      backoffWaitTime, backoffDelay, behTimeout, jitOne, defaultConfig, PyExn.isCaught,
      min_def, Except.map]
  · simp

/-- C1 amended: a fetch attempt failing with a connectivity-class error is
absorbed inside fetch_gas_prices (which returns None), so the cycle keeps
the live connection, does not call get_web3, and only logs the no-data
warning; the next cycle therefore reuses the connection without
re-establishing it.  Invalidation happens only when the cycle body itself
raises, i.e. on the get_web3 path. -/
theorem c1_amended (cfg : Config) (w : ℕ) (env : CycleEnv)
    (hf : ∀ n, (env.beh n).isNetFailure = true) :
    monitorCycle cfg (some w) env =
      Except.ok { conn := some w, calledConnect := false,
                  levels := [LogLevel.warning], fetched := some none } := by
  have hcf : ∀ n, (env.beh n).isCaughtFailure = true :=
    fun n => isNetFailure_isCaught _ (hf n)
  have hres : (fetch_gas_prices cfg env.beh env.jit).res = Except.ok none :=
    (fetchLoop_allFail cfg env.beh env.jit hcf cfg.RETRY_LIMIT 0 0 0).1
  simp [monitorCycle, hres]

/-- Witness for the amended C1: connection id 7 with the always-timeout
adapter. -/
theorem c1_witness :
    monitorCycle defaultConfig (some 7) envNetFail =
      Except.ok { conn := some 7, calledConnect := false,
                  levels := [LogLevel.warning], fetched := some none } :=
  c1_amended defaultConfig 7 envNetFail (fun _ => rfl)

/-- C7 counterexample: the cycle in which the connection handshake fails
emits exactly one error-level record (logger.exception) and no
critical-level record, contradicting the claimed critical-level logging. -/
theorem c7_counterexample :
    monitorCycle defaultConfig none envConnFail =
      Except.ok { conn := none, calledConnect := true, levels := [LogLevel.error],
                  fetched := none } ∧
    LogLevel.critical ∉ [LogLevel.error] := by
  constructor
  · norm_num [monitorCycle, get_web3, envConnFail]
  · decide

/-- C7 amended: when establishing the connection fails the process does not
crash: the failure is logged at error level (logger.exception, not
critical), the cycle ends with no connection and no fetch, the loop keeps
retrying indefinitely at the poll cadence (after fuel cycles it is still
running and has exited zero times), and the un-interrupted interval sleep
lasts the full MONITOR_INTERVAL seconds. -/
theorem c7_amended (cfg : Config) (env : CycleEnv) (envs : ℕ → CycleEnv) (fuel : ℕ)
    (h1 : env.canConnect = false) (h2 : env.urlConfigured = true)
    (hc : ∀ n, (envs n).canConnect = false) :
    monitorCycle cfg none env =
      Except.ok { conn := none, calledConnect := true, levels := [LogLevel.error],
                  fetched := none } ∧
    (monitorRun cfg envs (fun _ => false) fuel 0 none []).map
        (fun r => (r.exited, r.cycles, r.conn)) = Except.ok (false, fuel, none) ∧
    sleepLoop cfg.MONITOR_INTERVAL (fun _ => false) = cfg.MONITOR_INTERVAL := by
  refine ⟨?_, ?_, ?_⟩
  · have h := monitorCycle_connFail cfg env h1
    simpa [h2] using h
  · obtain ⟨tr, htr⟩ := monitorRun_connFail cfg envs hc fuel 0 []
    rw [htr]
    simp [Except.map]
  · have hgo : ∀ n t, sleepLoopGo (fun _ => false) n t = n := by
      intro n
      induction n with
      | zero => intro t; rfl
      | succ n ihn =>
          intro t
          simp [sleepLoopGo, ihn]
          omega
    exact hgo _ 0

/-- Witness for the amended C7 with two cycles of the failing-handshake
environment over the default configuration. -/
theorem c7_witness :
    monitorCycle defaultConfig none envConnFail =
      Except.ok { conn := none, calledConnect := true, levels := [LogLevel.error],
                  fetched := none } ∧
    (monitorRun defaultConfig (fun _ => envConnFail) (fun _ => false) 2 0 none []).map
        (fun r => (r.exited, r.cycles, r.conn)) = Except.ok (false, 2, none) ∧
    sleepLoop defaultConfig.MONITOR_INTERVAL (fun _ => false) =
      defaultConfig.MONITOR_INTERVAL :=
  c7_amended defaultConfig envConnFail (fun _ => envConnFail) 2 rfl rfl (fun _ => rfl)

/-- C8: the stop flag is idempotent across repeated termination signals
(n >= 2 deliveries leave it exactly as one delivery does, namely set), and
a monitoring loop observing the set flag exits exactly once, emitting the
final stopped log line exactly once and running no further cycle. -/
theorem c8_shutdown_idempotent (n : ℕ) (hn : 2 ≤ n) (cfg : Config)
    (envs : ℕ → CycleEnv) (fuel : ℕ) (conn : Option ℕ) :
    killerAfter false n = true ∧
    killerAfter false n = killerAfter false 1 ∧
    monitorRun cfg envs (fun _ => killerAfter false n) (fuel + 1) 0 conn [] =
      Except.ok { conn := conn, cycles := 0, stoppedLogs := 1, exited := true,
                  trace := [] } := by
  obtain ⟨m, rfl⟩ : ∃ m, n = m + 1 := ⟨n - 1, by omega⟩
  have ht : killerAfter false (m + 1) = true := rfl
  refine ⟨ht, by rw [ht]; rfl, ?_⟩
  simp [monitorRun, ht]

/-- Witness for C8: two signal deliveries, one cycle of fuel. -/
theorem c8_witness :
    killerAfter false 2 = true ∧
    killerAfter false 2 = killerAfter false 1 ∧
    monitorRun defaultConfig (fun _ => envConnFail) (fun _ => killerAfter false 2)
        1 0 none [] =
      Except.ok { conn := none, cycles := 0, stoppedLogs := 1, exited := true,
                  trace := [] } :=
  c8_shutdown_idempotent 2 (by norm_num) defaultConfig (fun _ => envConnFail) 0 none

end GasPrices
